import Mathlib

/-!
Shallow embedding of `syr_open_data.py` and the `summarize_violations`
function of `streamlit.py` from samedelstein/syracuse_address_checker.

Modelling conventions:
* Scalar cell values (`Val`) cover the Python values the pipeline moves
  around: ints, strings, datetimes (carried as an integer timestamp) and
  null/NaN/NaT.
* Timestamps/dates are abstract integers on one timeline; `strftime`
  of a date to `YYYY-MM-DD` and `pd.to_datetime` of the stored text are
  modelled as the identity on that integer.
* A pandas DataFrame is column-major: a list of (column name, values).
* The HTTP server is a function from the request's where-clause and
  `resultOffset` to a response; network / JSON / key / type failures are
  explicit `PyError` values.
* The Python `while True` loop of `fetch_data` is given explicit fuel;
  fuel exhaustion returns the records accumulated so far, and theorems
  quantify over the fuel.
* The SQLite store for one dataset is `Option DF`: `none` models a
  missing table (queries against it raise, which the source catches).
-/

namespace Syr

/-- A scalar value flowing through the pipeline. -/
inductive Val where
  | int (n : Int)
  | str (s : String)
  | dt (ts : Int)
  | null
deriving DecidableEq, Repr

/-- One flattened record: a Python dict in insertion order. -/
abbrev Record := List (String × Val)

/-- `d[k] = v` on a Python dict: replace in place or append a new key. -/
def set_key (r : Record) (k : String) (v : Val) : Record :=
  if r.any (fun p => p.1 == k) then
    r.map (fun p => if p.1 == k then (k, v) else p)
  else r ++ [(k, v)]

/-- One upstream feature: its `attributes` object and, when a non-empty
`geometry` object is present, its `coordinates` list. -/
structure Feature where
  attributes : Record
  geometry : Option (List Val)
deriving DecidableEq, Repr

/-- The Python exceptions relevant to `fetch_data`. -/
inductive PyError where
  | requestError
  | jsonDecodeError
  | keyError
  | typeError
  | indexError
deriving DecidableEq, Repr

deriving instance DecidableEq for Except

/-- The four exception classes caught by `fetch_data`'s handlers
(`RequestException`, `JSONDecodeError`, `KeyError`, `TypeError`). -/
def caught_exception : PyError → Bool
  | .requestError => true
  | .jsonDecodeError => true
  | .keyError => true
  | .typeError => true
  | .indexError => false

/-- A parsed response body: either an envelope without a usable
`features` list ("Invalid response structure") or a feature list. -/
inductive Response where
  | invalid
  | features (fs : List Feature)
deriving DecidableEq, Repr

/-- The varying `where` predicate of a query:
`field BETWEEN 'start' AND 'end'` or `field > bound`. -/
inductive WhereClause where
  | between (field : String) (start_date end_date : Int)
  | gt (field : String) (bound : Int)
deriving DecidableEq, Repr

/-- The request parameters the pipeline actually varies. The other
roughly 35 parameters of `build_query_params` are fixed constant strings
("esriGeometryEnvelope", "false", ..., token "") that never influence
control flow, so they are not carried. `resultOffset` and
`resultRecordCount` are empty strings (`none`) until pagination sets
them. -/
structure Params where
  whereClause : WhereClause
  resultOffset : Option Nat
  resultRecordCount : Option Nat
  f : String
deriving DecidableEq, Repr

/-- The external feature service: given the where-clause and the
`resultOffset` parameter (absent when pagination never set it), it
answers with an error or a parsed response. -/
abbrev Server := WhereClause → Option Nat → Except PyError Response

/-- Fixed page size of `fetch_data`. -/
def record_limit : Nat := 1000

/-- `build_query_params(base_date_field, start_date, end_date)`:
`where = "<field> BETWEEN '<start>' AND '<end>'"` with dates rendered
`YYYY-MM-DD` (identity in this model), everything else defaulted. -/
def build_query_params (base_date_field : String) (start_date end_date : Int)
    (f : String) : Params :=
  { whereClause := .between base_date_field start_date end_date
    resultOffset := none
    resultRecordCount := none
    f := f }

/-- The inline parameter dict of the id-keyed branch of
`fetch_and_load_data`: `where = "<id_field> > <bound>"`, everything else
defaulted. -/
def id_query_params (id_field : String) (bound : Int) : Params :=
  { whereClause := .gt id_field bound
    resultOffset := none
    resultRecordCount := none
    f := "pjson" }

/-- Flattening of one feature inside `fetch_data`'s page loop:
`properties = feature['attributes']`; if a geometry with a non-empty
coordinates list is present, `properties['longitude'] = coordinates[0]`
and `properties['latitude'] = coordinates[1]` — the latter raises
`IndexError` when the list has exactly one element; finally
`properties['part'] = part_type` when a part tag is configured. -/
def flatten_feature (part_type : Option String) (ft : Feature) :
    Except PyError Record :=
  let base : Except PyError Record :=
    match ft.geometry with
    | none => .ok ft.attributes
    | some coordinates =>
      match coordinates with
      | [] => .ok ft.attributes
      | [c0] =>
        let _ := set_key ft.attributes "longitude" c0
        .error .indexError
      | c0 :: c1 :: _ =>
        .ok (set_key (set_key ft.attributes "longitude" c0) "latitude" c1)
  base.map (fun properties =>
    match part_type with
    | some pt => set_key properties "part" (.str pt)
    | none => properties)

/-- Does `needle` occur at the head of `hay`? -/
def starts_with : List Char → List Char → Bool
  | [], _ => true
  | _ :: _, [] => false
  | n :: ns, h :: hs => n == h && starts_with ns hs

/-- Does `needle` occur anywhere in `hay` (Python `in` on strings)? -/
def has_sub (needle : List Char) : List Char → Bool
  | [] => needle.isEmpty
  | h :: hs => starts_with needle (h :: hs) || has_sub needle hs

/-- ASCII lower-casing of one character, as `str.lower()` acts on the
column names in play. -/
def char_lower (c : Char) : Char :=
  if c.toNat ≥ 65 ∧ c.toNat ≤ 90 then Char.ofNat (c.toNat + 32) else c

/-- `'date' in col.lower()`. -/
def is_date_col (name : String) : Bool :=
  has_sub "date".toList (name.toList.map char_lower)

/-- A pandas column has dtype `int64` exactly when every cell is a plain
int (any NaN or non-int cell makes it float64/object). -/
def all_int (vals : List Val) : Bool :=
  vals.all (fun v => match v with | .int _ => true | _ => false)

/-- `pd.to_datetime(series, unit='ms')` cell-wise: an integer is
reinterpreted as a datetime at that many Unix milliseconds. -/
def ms_to_datetime : Val → Val
  | .int n => .dt n
  | v => v

/-- A column-major pandas DataFrame. -/
abbrev DF := List (String × List Val)

/-- The generic date normalisation of `fetch_data`: every column whose
name contains "date" case-insensitively and whose dtype is int64 is
converted from Unix milliseconds to datetimes. -/
def convert_dates (df : DF) : DF :=
  df.map (fun c =>
    if is_date_col c.1 && all_int c.2 then (c.1, c.2.map ms_to_datetime)
    else c)

/-- Gregorian leap year. -/
def leap_year (y : Nat) : Bool :=
  y % 4 == 0 && (y % 100 != 0 || y % 400 == 0)

/-- Days in a month, as `datetime.strptime` validates them. -/
def days_in_month (y m : Nat) : Nat :=
  if m = 2 then (if leap_year y then 29 else 28)
  else if [4, 6, 9, 11].contains m then 30 else 31

/-- Days between 1970-01-01 and y-m-d in the proleptic Gregorian
calendar (civil-days algorithm). -/
def days_from_civil (y m d : Nat) : Int :=
  let yi : Int := if m ≤ 2 then (y : Int) - 1 else (y : Int)
  let era : Int := (if 0 ≤ yi then yi else yi - 399) / 400
  let yoe : Int := yi - era * 400
  let mp : Int := ((m : Int) + 9) % 12
  let doy : Int := (153 * mp + 2) / 5 + (d : Int) - 1
  let doe : Int := yoe * 365 + yoe / 4 - yoe / 100 + doy
  era * 146097 + doe - 719468

/-- Up to `maxLen` leading decimal digits, with the remaining input
(how one numeric `strptime` directive consumes characters). -/
def take_digits : Nat → List Char → List Char × List Char
  | 0, l => ([], l)
  | _ + 1, [] => ([], [])
  | n + 1, c :: cs =>
    if c.isDigit then
      let p := take_digits n cs
      (c :: p.1, p.2)
    else ([], c :: cs)

/-- Decimal digits to a number. -/
def digits_to_nat (ds : List Char) : Nat :=
  ds.foldl (fun a c => a * 10 + (c.toNat - 48)) 0

/-- One numeric `strptime` field of at most `maxLen` digits: at least
one digit must be present. -/
def parse_field (maxLen : Nat) (l : List Char) :
    Option (Nat × List Char) :=
  match take_digits maxLen l with
  | ([], _) => none
  | (ds, rest) => some (digits_to_nat ds, rest)

/-- One literal character of the format string. -/
def expect_char (c : Char) : List Char → Option (List Char)
  | [] => none
  | h :: t => if h == c then some t else none

/-- The `%p` directive at end of input: `AM`/`PM`, case-insensitive;
result is whether the PM half-day was named. -/
def parse_ampm : List Char → Option Bool
  | [p, m] =>
    if m == 'M' || m == 'm' then
      if p == 'A' || p == 'a' then some false
      else if p == 'P' || p == 'p' then some true
      else none
    else none
  | _ => none

/-- `datetime.strptime(s, '%m/%d/%Y - %I:%M%p')`, returning Unix
milliseconds, or `none` where strptime would raise `ValueError`:
recursive descent over the fixed format, whole input consumed, fields
validated as `datetime` would (month 1-12, day fitting the month,
12-hour clock, minute at most 59). -/
def parse_cityline (s : String) : Option Int := do
  let l := s.toList
  let (m, r1) ← parse_field 2 l
  let r2 ← expect_char '/' r1
  let (d, r3) ← parse_field 2 r2
  let r4 ← expect_char '/' r3
  let (y, r5) ← parse_field 4 r4
  let r6 ← expect_char ' ' r5
  let r7 ← expect_char '-' r6
  let r8 ← expect_char ' ' r7
  let (h, r9) ← parse_field 2 r8
  let r10 ← expect_char ':' r9
  let (mi, r11) ← parse_field 2 r10
  let isPM ← parse_ampm r11
  if 1 ≤ y ∧ 1 ≤ m ∧ m ≤ 12 ∧ 1 ≤ d ∧ d ≤ days_in_month y m ∧
      1 ≤ h ∧ h ≤ 12 ∧ mi ≤ 59 then
    let h24 : Nat :=
      if isPM then (if h = 12 then 12 else h + 12)
      else (if h = 12 then 0 else h)
    some (days_from_civil y m d * 86400000 +
          ((h24 * 3600 + mi * 60 : Nat) : Int) * 1000)
  else none

/-- `pd.to_datetime(series, format='%m/%d/%Y - %I:%M%p',
errors='coerce')` cell-wise: strings are parsed with the explicit
format, unparsable cells become NaT (missing), datetimes pass through,
anything else coerces to NaT. -/
def coerce_parse : Val → Val
  | .str s =>
    match parse_cityline s with
    | some t => .dt t
    | none => .null
  | .dt t => .dt t
  | _ => .null

/-- The three textual timestamp columns of the cityline dataset. -/
def cityline_fields : List String :=
  ["Created_at_local", "Acknowledged_at_local", "Closed_at_local"]

/-- The cityline-specific conversion of `fetch_data`: each of the three
named columns present in the frame is parsed with the explicit format,
coercing failures to missing. -/
def convert_cityline (df : DF) : DF :=
  df.map (fun c =>
    if cityline_fields.contains c.1 then (c.1, c.2.map coerce_parse)
    else c)

/-- The post-processing tail of `fetch_data`: generic ms-date conversion
always, cityline textual parsing only for table `cityline_requests`. -/
def post_process (df : DF) (table_name : Option String) : DF :=
  let df := convert_dates df
  if table_name == some "cityline_requests" then convert_cityline df else df

/-- Order-preserving (first occurrence) deduplication of column names,
as `pd.DataFrame(list_of_dicts)` orders its columns. -/
def dedup_keep_first (l : List String) : List String :=
  l.foldl (fun acc k => if acc.contains k then acc else acc ++ [k]) []

/-- `pd.DataFrame(all_records)`: columns are the keys in order of first
appearance; a record without a key contributes NaN (`null`). -/
def to_df (recs : List Record) : DF :=
  (dedup_keep_first (recs.flatMap (fun r => r.map Prod.fst))).map
    (fun name => (name, recs.map (fun r => (r.lookup name).getD .null)))

/-- `df.empty`: no columns, or every column has zero rows. -/
def df_empty (df : DF) : Bool :=
  df.isEmpty || df.all (fun c => c.2.isEmpty)

/-- What a request records for the audit trail: the
`(resultOffset, resultRecordCount)` pair set on the params when
pagination is enabled, `none` (both left `""`) otherwise. -/
abbrev ReqEntry := Option (Nat × Nat)

/-- The `while True` page loop of `fetch_data`, with fuel. Returns the
requests issued together with the accumulated flattened records or the
first uncaught-at-this-level exception. Breaks: invalid envelope, empty
feature list, record cap reached (truncating to the cap), pagination
disabled; otherwise the offset advances by `record_limit`. -/
def fetch_loop (server : Server) (wc : WhereClause) (part_type : Option String)
    (paginate : Bool) (max_records : Option Nat) :
    Nat → Nat → List Record → List ReqEntry →
    List ReqEntry × Except PyError (List Record)
  | 0, _, all_records, reqs => (reqs, .ok all_records)
  | fuel + 1, offset, all_records, reqs =>
    let reqs := reqs ++ [if paginate then some (offset, record_limit) else none]
    match server wc (if paginate then some offset else none) with
    | .error e => (reqs, .error e)
    | .ok .invalid => (reqs, .ok all_records)
    | .ok (.features fs) =>
      if fs.isEmpty then (reqs, .ok all_records)
      else
        match fs.mapM (flatten_feature part_type) with
        | .error e => (reqs, .error e)
        | .ok records =>
          let all_records := all_records ++ records
          match max_records with
          | some m =>
            if m ≠ 0 ∧ m ≤ all_records.length then
              (reqs, .ok (all_records.take m))
            else if !paginate then (reqs, .ok all_records)
            else fetch_loop server wc part_type paginate max_records fuel
                  (offset + record_limit) all_records reqs
          | none =>
            if !paginate then (reqs, .ok all_records)
            else fetch_loop server wc part_type paginate max_records fuel
                  (offset + record_limit) all_records reqs

/-- `fetch_data`: run the page loop; the four caught exception classes
become the "no data" result `none`; zero accumulated records become
`none`; otherwise the records become a post-processed DataFrame. The
request trail is returned alongside for auditing. -/
def fetch_data (fuel : Nat) (server : Server) (params : Params)
    (part_type : Option String) (paginate : Bool) (max_records : Option Nat)
    (table_name : Option String) :
    List ReqEntry × Except PyError (Option DF) :=
  match fetch_loop server params.whereClause part_type paginate max_records
      fuel 0 [] [] with
  | (reqs, .error e) =>
    if caught_exception e then (reqs, .ok none) else (reqs, .error e)
  | (reqs, .ok all_records) =>
    if all_records.isEmpty then (reqs, .ok none)
    else (reqs, .ok (some (post_process (to_df all_records) table_name)))

/-- The persistent store for one dataset: `none` when the table does
not exist (a query against it raises inside pandas/sqlite), otherwise
the table's frame. -/
abbrev Store := Option DF

/-- A stored cell seen as a comparable scalar by SQL `MAX`. -/
def value_num : Val → Option Int
  | .int n => some n
  | .dt t => some t
  | _ => none

/-- Maximum of a list of integers, `none` when empty. -/
def list_max (l : List Int) : Option Int :=
  l.foldl (fun acc x =>
    match acc with
    | none => some x
    | some a => some (max a x)) none

/-- `pd.read_sql_query("SELECT MAX(<field>) FROM <table>", conn)`:
raises when the table (or the column) does not exist, otherwise yields
SQL `MAX` over the column — `NULL` (`none`) on an empty table. -/
def sql_max_query (store : Store) (field : String) :
    Except Unit (Option Int) :=
  match store with
  | none => .error ()
  | some df =>
    match df.lookup field with
    | none => .error ()
    | some vals => .ok (list_max (vals.filterMap value_num))

/-- `get_max_date_from_sqlite`: the `try` body reads `MAX(date_field)`
and converts it (`pd.to_datetime`, identity here); a falsy result
(`NULL`) yields `None`; the blanket `except` also yields `None`. Stored
date texts are never empty, so truthiness coincides with non-NULL. -/
def get_max_date_from_sqlite (store : Store) (date_field : String) :
    Option Int :=
  match sql_max_query store date_field with
  | .error _ => none
  | .ok none => none
  | .ok (some d) => some d

/-- `get_max_id_from_sqlite`: the `try` body reads `MAX(id_field)`;
`if result.iloc[0, 0]:` makes both `NULL` and a stored maximum of `0`
fall to the `0` branch; the blanket `except` also yields `0`. -/
def get_max_id_from_sqlite (store : Store) (id_field : String) : Int :=
  match sql_max_query store id_field with
  | .error _ => 0
  | .ok none => 0
  | .ok (some m) => if m ≠ 0 then m else 0

/-- `load_dataframe_to_sqlite`: `df.to_sql` either succeeds, producing
the new store state, or raises; the surrounding `try`/`except
Exception` logs the failure and falls through, so the function returns
normally either way. `attempt` is the outcome the underlying `to_sql`
call produces on this invocation; `store` is the prior state, left
untouched on failure. -/
def load_dataframe_to_sqlite (attempt : Except PyError Store)
    (store : Store) : Except PyError Store :=
  match attempt with
  | .ok s => .ok s
  | .error _ => .ok store

/-- `to_sql(..., if_exists='append')` onto an existing table with the
same column set: each column's rows are extended by the new frame's
rows for that column (the aligned-columns case exercised here). -/
def append_df (t new : DF) : DF :=
  t.map (fun c => (c.1, c.2 ++ ((new.lookup c.1).getD [])))

/-- What one orchestrator pass decides to do to the dataset's table. -/
inductive LoadAction where
  | replace (df : DF)
  | append (df : DF)
  | noop
deriving DecidableEq, Repr

/-- The per-dataset configuration dict (`endpoints[key]`), plus the key
itself as `name`. `config.get` on an absent key gives `none`/`false`. -/
structure DatasetConfig where
  name : String
  base_url : String
  date_field : Option String
  id_field : Option String
  days_ago : Nat
  paginate : Bool
  part_type : Option String
  max_records : Option Nat

/-- `fetch_and_load_data(key, config, conn)` reduced to the action it
takes on the dataset's table. Date-keyed: missing watermark fetches
`(today - days_ago, today)` and replaces whenever a frame comes back;
present watermark fetches `(watermark, today)` and appends only a
non-empty frame. Id-keyed: fetches `id > watermark` (watermark
defaulting to zero, re-checked for truthiness inline) and appends only
a non-empty frame. Neither field configured: report and do nothing. An
exception that `fetch_data` does not catch propagates. -/
def fetch_and_load_data (fuel : Nat) (server : Server)
    (cfg : DatasetConfig) (store : Store) (today : Int) :
    Except PyError LoadAction :=
  match cfg.date_field with
  | some date_field =>
    match get_max_date_from_sqlite store date_field with
    | none =>
      let start_date := today - (cfg.days_ago : Int)
      match (fetch_data fuel server
          (build_query_params date_field start_date today "pjson")
          cfg.part_type cfg.paginate cfg.max_records (some cfg.name)).2 with
      | .error e => .error e
      | .ok none => .ok .noop
      | .ok (some df) => .ok (.replace df)
    | some max_date_in_db =>
      match (fetch_data fuel server
          (build_query_params date_field max_date_in_db today "pjson")
          cfg.part_type cfg.paginate cfg.max_records (some cfg.name)).2 with
      | .error e => .error e
      | .ok none => .ok .noop
      | .ok (some df) => if df_empty df then .ok .noop else .ok (.append df)
  | none =>
    match cfg.id_field with
    | some id_field =>
      let max_id_in_db := get_max_id_from_sqlite store id_field
      match (fetch_data fuel server
          (id_query_params id_field
            (if max_id_in_db ≠ 0 then max_id_in_db else 0))
          cfg.part_type cfg.paginate cfg.max_records (some cfg.name)).2 with
      | .error e => .error e
      | .ok none => .ok .noop
      | .ok (some df) => if df_empty df then .ok .noop else .ok (.append df)
    | none => .ok .noop

/-- Apply the decided action to the store, modelling a successful
`to_sql` call (`append` onto a missing table creates it). -/
def apply_action (store : Store) : LoadAction → Store
  | .replace df => some df
  | .append df =>
    match store with
    | none => some df
    | some t => some (append_df t df)
  | .noop => store

/-- One full orchestrator pass over one dataset: decide and apply. -/
def run_step (fuel : Nat) (server : Server) (cfg : DatasetConfig)
    (store : Store) (today : Int) : Except PyError Store :=
  (fetch_and_load_data fuel server cfg store today).map (apply_action store)

/-- Semantics of the where-clause at the feature service: which
attribute sets a query predicate selects. `BETWEEN` is inclusive at
both ends; `>` is strict. -/
def where_matches (wc : WhereClause) (attrs : Record) : Bool :=
  match wc with
  | .between f a b =>
    match (attrs.lookup f).bind value_num with
    | some d => decide (a ≤ d) && decide (d ≤ b)
    | none => false
  | .gt f bound =>
    match (attrs.lookup f).bind value_num with
    | some i => decide (bound < i)
    | none => false

/-- A well-behaved feature service holding `rows`: it answers every
query with the rows selected by the where-clause, paged from the given
offset in pages of `record_limit`. -/
def mk_server (rows : List Feature) : Server := fun wc off =>
  let sel := rows.filter (fun ft => where_matches wc ft.attributes)
  .ok (.features ((sel.drop (off.getD 0)).take record_limit))

/-- One row of the violations frame handed to `summarize_violations`
(the fields the prompt serialises). -/
structure ViolationRow where
  violation_number : String
  complaint_type_name : String
  violation : String
  open_date : String
  violation_date : String
  issued_to : String
deriving DecidableEq, Repr

/-- The per-row block built inside `summarize_violations`. -/
def violation_block (row : ViolationRow) : String :=
  "  - Violation Number: " ++ row.violation_number ++ "\n" ++
  "    Violation Type: " ++ row.complaint_type_name ++ "\n" ++
  "    Violation: " ++ row.violation ++ "\n" ++
  "    Open Date: " ++ row.open_date ++ "\n" ++
  "    Violation Date: " ++ row.violation_date ++ "\n" ++
  "    Issued To: " ++ row.issued_to ++ "\n"

/-- The full prompt submitted to the model for a non-empty frame. -/
def summary_prompt (df : List ViolationRow) : String :=
  let all_violation_summaries :=
    String.intercalate "\n" (df.map violation_block)
  "\n    Here's information about code violations at an address:\n    " ++
  all_violation_summaries ++
  "\n    Please summarize the number of violations and provide a description of the violation types in a paragraph. \n    "

/-- `summarize_violations(df)` from `streamlit.py`, with the model call
abstracted as `oracle` and the prompts actually sent returned alongside
the reply: an empty frame short-circuits to the fixed string with no
oracle call; otherwise the serialised prompt goes to the oracle once. -/
def summarize_violations (oracle : String → String)
    (df : List ViolationRow) : String × List String :=
  if df.isEmpty then ("No violations to summarize.", [])
  else
    let prompt := summary_prompt df
    (oracle prompt, [prompt])

/-! Concrete fixtures used to evaluate the pipeline on closed inputs. -/

/-- A date-keyed dataset configuration (the `code_violations` shape). -/
def ex_cfg_date : DatasetConfig :=
  { name := "code_violations", base_url := "u",
    date_field := some "violation_date", id_field := none,
    days_ago := 10, paginate := true, part_type := none,
    max_records := none }

/-- An id-keyed dataset configuration (the `cityline_requests` shape). -/
def ex_cfg_id : DatasetConfig :=
  { name := "cityline_requests", base_url := "u",
    date_field := none, id_field := some "ObjectId",
    days_ago := 0, paginate := true, part_type := none,
    max_records := none }

/-- A feature service holding one record dated at timestamp 5. -/
def ex_srv_date : Server :=
  mk_server [⟨[("violation_date", .int 5)], none⟩]

/-- A feature service holding records with identifiers 1 and 2. -/
def ex_srv_id : Server :=
  mk_server [⟨[("ObjectId", .int 1)], none⟩, ⟨[("ObjectId", .int 2)], none⟩]

/-- A feature service that always answers with an empty feature list. -/
def ex_srv_empty : Server := fun _ _ => .ok (.features [])

/-- A feature service whose record carries a geometry with exactly one
coordinate, so that promoting `coordinates[1]` raises `IndexError`. -/
def ex_srv_idx : Server := fun _ _ =>
  .ok (.features [⟨[("a", .int 1)], some [.int 7]⟩])

/-- A feature service answering five records per page, forever. -/
def ex_srv_cap : Server := fun _ off =>
  .ok (.features ((List.range 5).map
    (fun k => ⟨[("i", Val.int (k + (off.getD 0)))], none⟩)))

/-! Helper lemmas shared by the claim theorems. -/

/-- A successful association-list lookup pinpoints a member. -/
theorem lookup_mem {cols : DF} {f : String} {vals : List Val}
    (h : cols.lookup f = some vals) : (f, vals) ∈ cols := by
  induction cols with
  | nil => simp [List.lookup] at h
  | cons c t ih =>
    rcases c with ⟨k, v⟩
    by_cases hk : f = k
    · subst hk
      simp [List.lookup] at h
      subst h
      exact List.mem_cons_self _ _
    · have hk' : (f == k) = false := beq_eq_false_iff_ne.mpr hk
      rw [List.lookup, hk'] at h
      exact List.mem_cons_of_mem _ (ih h)

/-- The page loop never accumulates beyond a configured non-zero cap:
whenever it returns records from a state within the cap, the result is
within the cap. -/
theorem fetch_loop_cap_le {server : Server} {wc : WhereClause}
    {pt : Option String} {pag : Bool} {m : Nat} (hm : m ≠ 0) :
    ∀ fuel offset acc reqs log r,
      acc.length ≤ m →
      fetch_loop server wc pt pag (some m) fuel offset acc reqs =
        (log, .ok r) →
      r.length ≤ m := by
  intro fuel
  induction fuel with
  | zero =>
    intro offset acc reqs log r hacc h
    simp only [fetch_loop] at h
    obtain ⟨-, h2⟩ := Prod.mk.injEq .. ▸ h
    cases h2
    exact hacc
  | succ n ih =>
    intro offset acc reqs log r hacc h
    simp only [fetch_loop] at h
    split at h
    · simp at h
    · obtain ⟨-, h2⟩ := Prod.mk.injEq .. ▸ h
      cases h2
      exact hacc
    · rename_i fs _
      split at h
      · obtain ⟨-, h2⟩ := Prod.mk.injEq .. ▸ h
        cases h2
        exact hacc
      · split at h
        · simp at h
        · rename_i records _
          split at h
          · obtain ⟨-, h2⟩ := Prod.mk.injEq .. ▸ h
            cases h2
            simp
          · rename_i hcap
            split at h
            · obtain ⟨-, h2⟩ := Prod.mk.injEq .. ▸ h
              cases h2
              have : ¬ m ≤ (acc ++ records).length := by
                intro hle
                exact hcap ⟨hm, hle⟩
              omega
            · have : ¬ m ≤ (acc ++ records).length := by
                intro hle
                exact hcap ⟨hm, hle⟩
              exact ih _ _ _ _ _ (by omega) h

/-- Every request the page loop issues either predates the call or asks
for a full page of `record_limit` records (or sets no paging fields at
all): the cap never shortens a page request. -/
theorem fetch_loop_reqs_full {server : Server} {wc : WhereClause}
    {pt : Option String} {pag : Bool} {mr : Option Nat} :
    ∀ fuel offset acc reqs log r,
      fetch_loop server wc pt pag mr fuel offset acc reqs = (log, r) →
      (∀ e ∈ reqs, e = none ∨ ∃ o, e = some (o, record_limit)) →
      ∀ e ∈ log, e = none ∨ ∃ o, e = some (o, record_limit) := by
  intro fuel
  induction fuel with
  | zero =>
    intro offset acc reqs log r h hreqs
    simp only [fetch_loop] at h
    obtain ⟨h1, -⟩ := Prod.mk.injEq .. ▸ h
    cases h1
    exact hreqs
  | succ n ih =>
    intro offset acc reqs log r h hreqs
    have hreqs' : ∀ e ∈ reqs ++
        [if pag then some (offset, record_limit) else none],
        e = none ∨ ∃ o, e = some (o, record_limit) := by
      intro e he
      rcases List.mem_append.mp he with h1 | h2
      · exact hreqs e h1
      · rcases List.mem_singleton.mp h2 with rfl
        cases pag
        · simp
        · exact Or.inr ⟨offset, by simp⟩
    simp only [fetch_loop] at h
    split at h
    all_goals first
      | (obtain ⟨h1, -⟩ := Prod.mk.injEq .. ▸ h
         cases h1
         exact hreqs')
      | skip
    · rename_i fs _
      split at h
      · obtain ⟨h1, -⟩ := Prod.mk.injEq .. ▸ h
        cases h1
        exact hreqs'
      · split at h
        · obtain ⟨h1, -⟩ := Prod.mk.injEq .. ▸ h
          cases h1
          exact hreqs'
        · split at h
          · split at h
            · obtain ⟨h1, -⟩ := Prod.mk.injEq .. ▸ h
              cases h1
              exact hreqs'
            · split at h
              · obtain ⟨h1, -⟩ := Prod.mk.injEq .. ▸ h
                cases h1
                exact hreqs'
              · exact ih _ _ _ _ _ h hreqs'
          · split at h
            · obtain ⟨h1, -⟩ := Prod.mk.injEq .. ▸ h
              cases h1
              exact hreqs'
            · exact ih _ _ _ _ _ h hreqs'

/-- Every column of `to_df recs` has one cell per record. -/
theorem to_df_col_length {recs : List Record} :
    ∀ c ∈ to_df recs, c.2.length = recs.length := by
  intro c hc
  obtain ⟨name, -, rfl⟩ := List.mem_map.mp hc
  simp

/-- Post-processing only rewrites cells: every output column matches an
input column of the same name and row count. -/
theorem post_process_col_length {df : DF} {tn : Option String} :
    ∀ c ∈ post_process df tn, ∃ c' ∈ df, c.1 = c'.1 ∧
      c.2.length = c'.2.length := by
  have hcd : ∀ c ∈ convert_dates df, ∃ c' ∈ df, c.1 = c'.1 ∧
      c.2.length = c'.2.length := by
    intro c hc
    obtain ⟨c', hc', rfl⟩ := List.mem_map.mp hc
    refine ⟨c', hc', ?_⟩
    split
    · simp
    · simp
  intro c hc
  unfold post_process at hc
  split at hc
  · obtain ⟨c', hc', rfl⟩ := List.mem_map.mp hc
    obtain ⟨c'', hc'', h1, h2⟩ := hcd c' hc'
    refine ⟨c'', hc'', ?_, ?_⟩
    · split <;> simp_all
    · split <;> simp_all
  · exact hcd c hc

/-! The claim theorems. -/

/-- Claim C2 (evaluated at the failing input): with a date-keyed
dataset whose upstream holds one record at timestamp 5 and does not
change, a first orchestration run replace-loads the record, and a
second run — the same watermark window semantics, no new upstream
data — appends the very same record again, leaving the table with a
duplicate row. The incremental `BETWEEN '<watermark>' AND '<now>'`
window is inclusive of the watermark, so the claimed no-duplicate
invariant fails at the watermark boundary. -/
theorem c2_duplicate_at_watermark_boundary :
    run_step 3 ex_srv_date ex_cfg_date none 10 =
      .ok (some [("violation_date", [Val.dt 5])]) ∧
    run_step 3 ex_srv_date ex_cfg_date
        (some [("violation_date", [Val.dt 5])]) 10 =
      .ok (some [("violation_date", [Val.dt 5, Val.dt 5])]) :=
  ⟨by decide, by decide⟩

/-- Claim C4: for a missing table (`none`) and for a table whose
columns hold no rows, the date watermark read returns `none` and the id
watermark read returns `0`; both are total functions, so no error
reaches the caller. -/
theorem c4_watermark_missing_table (f : String) (cols : DF)
    (hrows : ∀ c ∈ cols, c.2 = ([] : List Val)) :
    get_max_date_from_sqlite none f = none ∧
    get_max_id_from_sqlite none f = 0 ∧
    get_max_date_from_sqlite (some cols) f = none ∧
    get_max_id_from_sqlite (some cols) f = 0 := by
  refine ⟨rfl, rfl, ?_, ?_⟩
  · unfold get_max_date_from_sqlite sql_max_query
    cases hl : cols.lookup f with
    | none => simp [hl]
    | some vals =>
      have : vals = [] := hrows _ (lookup_mem hl)
      subst this
      simp [hl, list_max]
  · unfold get_max_id_from_sqlite sql_max_query
    cases hl : cols.lookup f with
    | none => simp [hl]
    | some vals =>
      have : vals = [] := hrows _ (lookup_mem hl)
      subst this
      simp [hl, list_max]

/-- Witness for C4 at a concrete empty table. -/
theorem c4_watermark_missing_table_witness :
    get_max_date_from_sqlite none "x" = none ∧
    get_max_id_from_sqlite none "x" = 0 ∧
    get_max_date_from_sqlite (some [("x", [])]) "x" = none ∧
    get_max_id_from_sqlite (some [("x", [])]) "x" = 0 :=
  c4_watermark_missing_table "x" [("x", [])] (by simp)

/-- Claim C8, counterexample: when the underlying `to_sql` write fails,
`load_dataframe_to_sqlite` returns normally (the blanket `except`
merely logs), so the caller sees success rather than a propagated
error — refuting "propagates an error to its caller on failure". -/
theorem c8_failure_not_propagated :
    load_dataframe_to_sqlite (.error .typeError)
        (some [("a", [Val.int 1])]) =
      .ok (some [("a", [Val.int 1])]) := rfl

/-- Claim C8 as amended: the Loader completes with no output on
success, and on failure it logs and swallows the error, returning
normally with the store untouched; it never propagates. -/
theorem c8_loader_always_returns (wr : Store) (e : PyError)
    (store : Store) :
    load_dataframe_to_sqlite (.ok wr) store = .ok wr ∧
    load_dataframe_to_sqlite (.error e) store = .ok store :=
  ⟨rfl, rfl⟩

/-- Claim C9: an empty violation frame short-circuits
`summarize_violations` to exactly the literal reply, with no prompt
sent to the oracle, whatever the oracle would answer. -/
theorem c9_empty_violations_no_oracle (oracle : String → String) :
    summarize_violations oracle [] =
      ("No violations to summarize.", []) := rfl

/-- Claim C10: a fetched feature whose geometry carries exactly one
coordinate makes the `coordinates[1]` promotion raise `IndexError`,
which is not among the four caught exception classes and therefore
escapes `fetch_data` instead of becoming the "no data" result. -/
theorem c10_index_error_escapes_fetch :
    (fetch_data 2 ex_srv_idx (id_query_params "i" 0) none true none
        (some "t")).2 = .error .indexError ∧
    caught_exception .indexError = false :=
  ⟨by decide, rfl⟩

/-- Claim C1: for a date-keyed dataset the orchestrator reads the date
watermark first. Watermark absent: it fetches the window from
`today - days_ago` through today and replace-loads whatever frame the
fetch returns, doing nothing on the "no data" result. Watermark
present: it fetches the window from the watermark through today and
append-loads exactly a non-empty frame, doing nothing otherwise. -/
theorem c1_date_keyed_orchestration (fuel : Nat) (server : Server)
    (cfg : DatasetConfig) (store : Store) (today : Int) (f : String)
    (hdf : cfg.date_field = some f) :
    (get_max_date_from_sqlite store f = none →
      ((fetch_data fuel server
          (build_query_params f (today - (cfg.days_ago : Int)) today "pjson")
          cfg.part_type cfg.paginate cfg.max_records (some cfg.name)).2 =
            .ok none →
        fetch_and_load_data fuel server cfg store today = .ok .noop) ∧
      (∀ df, (fetch_data fuel server
          (build_query_params f (today - (cfg.days_ago : Int)) today "pjson")
          cfg.part_type cfg.paginate cfg.max_records (some cfg.name)).2 =
            .ok (some df) →
        fetch_and_load_data fuel server cfg store today =
          .ok (.replace df))) ∧
    (∀ wm, get_max_date_from_sqlite store f = some wm →
      ((fetch_data fuel server (build_query_params f wm today "pjson")
          cfg.part_type cfg.paginate cfg.max_records (some cfg.name)).2 =
            .ok none →
        fetch_and_load_data fuel server cfg store today = .ok .noop) ∧
      (∀ df, (fetch_data fuel server (build_query_params f wm today "pjson")
          cfg.part_type cfg.paginate cfg.max_records (some cfg.name)).2 =
            .ok (some df) → df_empty df = false →
        fetch_and_load_data fuel server cfg store today =
          .ok (.append df)) ∧
      (∀ df, (fetch_data fuel server (build_query_params f wm today "pjson")
          cfg.part_type cfg.paginate cfg.max_records (some cfg.name)).2 =
            .ok (some df) → df_empty df = true →
        fetch_and_load_data fuel server cfg store today = .ok .noop)) := by
  constructor
  · intro hwm
    constructor
    · intro hfetch
      simp only [fetch_and_load_data, hdf, hwm, hfetch]
    · intro df hfetch
      simp only [fetch_and_load_data, hdf, hwm, hfetch]
  · intro wm hwm
    refine ⟨?_, ?_, ?_⟩
    · intro hfetch
      simp only [fetch_and_load_data, hdf, hwm, hfetch]
    · intro df hfetch hemp
      simp only [fetch_and_load_data, hdf, hwm, hfetch, hemp]
      simp
    · intro df hfetch hemp
      simp only [fetch_and_load_data, hdf, hwm, hfetch, hemp]
      simp

/-- Witness for C1: on the concrete date-keyed fixture with an empty
store, the orchestrator replace-loads the fetched frame. -/
theorem c1_date_keyed_orchestration_witness :
    fetch_and_load_data 3 ex_srv_date ex_cfg_date none 10 =
      .ok (.replace [("violation_date", [Val.dt 5])]) :=
  ((c1_date_keyed_orchestration 3 ex_srv_date ex_cfg_date none 10
      "violation_date" rfl).1 rfl).2
    [("violation_date", [Val.dt 5])] (by decide)

/-- Claim C3: for an id-keyed dataset the orchestrator reads the id
watermark (zero when the table is missing), queries with the strict
predicate `id > watermark` — which selects only records whose
identifier strictly exceeds the watermark — append-loads exactly a
non-empty frame, does nothing otherwise, and never replace-loads. -/
theorem c3_id_keyed_orchestration (fuel : Nat) (server : Server)
    (cfg : DatasetConfig) (store : Store) (today : Int) (idf : String)
    (hdate : cfg.date_field = none) (hid : cfg.id_field = some idf) :
    (store = none → get_max_id_from_sqlite store idf = 0) ∧
    ((fetch_data fuel server
        (id_query_params idf (get_max_id_from_sqlite store idf))
        cfg.part_type cfg.paginate cfg.max_records (some cfg.name)).2 =
          .ok none →
      fetch_and_load_data fuel server cfg store today = .ok .noop) ∧
    (∀ df, (fetch_data fuel server
        (id_query_params idf (get_max_id_from_sqlite store idf))
        cfg.part_type cfg.paginate cfg.max_records (some cfg.name)).2 =
          .ok (some df) → df_empty df = false →
      fetch_and_load_data fuel server cfg store today =
        .ok (.append df)) ∧
    (∀ df, (fetch_data fuel server
        (id_query_params idf (get_max_id_from_sqlite store idf))
        cfg.part_type cfg.paginate cfg.max_records (some cfg.name)).2 =
          .ok (some df) → df_empty df = true →
      fetch_and_load_data fuel server cfg store today = .ok .noop) ∧
    (∀ df, fetch_and_load_data fuel server cfg store today ≠
      .ok (.replace df)) ∧
    (id_query_params idf (get_max_id_from_sqlite store idf)).whereClause =
      .gt idf (get_max_id_from_sqlite store idf) ∧
    (∀ attrs : Record,
      where_matches (.gt idf (get_max_id_from_sqlite store idf)) attrs =
        true →
      ∃ v i, attrs.lookup idf = some v ∧ value_num v = some i ∧
        get_max_id_from_sqlite store idf < i) := by
  have htruthy : (if get_max_id_from_sqlite store idf ≠ 0 then
      get_max_id_from_sqlite store idf else 0) =
      get_max_id_from_sqlite store idf := by
    by_cases h : get_max_id_from_sqlite store idf = 0
    · simp [h]
    · simp [h]
  refine ⟨?_, ?_, ?_, ?_, ?_, rfl, ?_⟩
  · intro hs
    subst hs
    rfl
  · intro hfetch
    simp only [fetch_and_load_data, hdate, hid, htruthy, hfetch]
  · intro df hfetch hemp
    simp only [fetch_and_load_data, hdate, hid, htruthy, hfetch, hemp]
    simp
  · intro df hfetch hemp
    simp only [fetch_and_load_data, hdate, hid, htruthy, hfetch, hemp]
    simp
  · intro df
    simp only [fetch_and_load_data, hdate, hid, htruthy]
    split
    · simp
    · simp
    · split <;> simp
  · intro attrs h
    simp only [where_matches] at h
    cases hb : (attrs.lookup idf).bind value_num with
    | none => rw [hb] at h; simp at h
    | some i =>
      rw [hb] at h
      simp at h
      obtain ⟨v, hv, hvi⟩ := Option.bind_eq_some.mp hb
      exact ⟨v, i, hv, hvi, h⟩

/-- Witness for C3: on the concrete id-keyed fixture with a stored
maximum identifier of 1, the orchestrator append-loads only the record
with identifier 2. -/
theorem c3_id_keyed_orchestration_witness :
    fetch_and_load_data 3 ex_srv_id ex_cfg_id
        (some [("ObjectId", [Val.int 1])]) 0 =
      .ok (.append [("ObjectId", [Val.int 2])]) :=
  ((c3_id_keyed_orchestration 3 ex_srv_id ex_cfg_id
      (some [("ObjectId", [Val.int 1])]) 0 "ObjectId" rfl rfl).2.2.1
    [("ObjectId", [Val.int 2])] (by decide) (by decide))

/-- Claim C5: a page whose feature list is empty stops the loop at
once — the request trail gains only the request that returned the empty
page and the offset is never advanced past it — and a fetch whose first
page is empty (hence one where every page is empty) yields the "no
data" signal `none`, not an empty frame. -/
theorem c5_empty_page_stops (server : Server) (params : Params)
    (pt : Option String) (mr : Option Nat) (tn : Option String) :
    (∀ fuel offset acc reqs,
      server params.whereClause (some offset) = .ok (.features []) →
      fetch_loop server params.whereClause pt true mr (fuel + 1) offset
          acc reqs =
        (reqs ++ [some (offset, record_limit)], .ok acc)) ∧
    (∀ fuel, server params.whereClause (some 0) = .ok (.features []) →
      fetch_data (fuel + 1) server params pt true mr tn =
        ([some (0, record_limit)], .ok none)) := by
  have hA : ∀ fuel offset acc reqs,
      server params.whereClause (some offset) = .ok (.features []) →
      fetch_loop server params.whereClause pt true mr (fuel + 1) offset
          acc reqs =
        (reqs ++ [some (offset, record_limit)], .ok acc) := by
    intro fuel offset acc reqs h
    simp [fetch_loop, h]
  refine ⟨hA, ?_⟩
  intro fuel h
  unfold fetch_data
  rw [hA fuel 0 [] [] h]
  simp

/-- Witness for C5: the always-empty fixture service produces exactly
one request and the "no data" result. -/
theorem c5_empty_page_stops_witness :
    fetch_data 5 ex_srv_empty (id_query_params "i" 0) none true none
        (some "t") =
      ([some (0, record_limit)], .ok none) :=
  (c5_empty_page_stops ex_srv_empty (id_query_params "i" 0) none none
      (some "t")).2 4 rfl

/-- Claim C6: with a configured positive record cap, every column of a
returned frame holds at most cap cells; every request still asks for a
full page of `record_limit` records (the cap never shortens a request);
and the moment a fully fetched, flattened page pushes the accumulation
to the cap, the loop returns exactly the first cap records and stops
paging. -/
theorem c6_record_cap (fuel : Nat) (server : Server) (params : Params)
    (pt : Option String) (pag : Bool) (tn : Option String) (m : Nat)
    (hm : 0 < m) :
    (∀ log df, fetch_data fuel server params pt pag (some m) tn =
        (log, .ok (some df)) →
      ∀ c ∈ df, c.2.length ≤ m) ∧
    (∀ log r, fetch_data fuel server params pt pag (some m) tn =
        (log, r) →
      ∀ e ∈ log, e = none ∨ ∃ o, e = some (o, record_limit)) ∧
    (∀ offset acc reqs fs records,
      server params.whereClause (if pag then some offset else none) =
        .ok (.features fs) →
      fs.isEmpty = false →
      fs.mapM (flatten_feature pt) = .ok records →
      m ≤ (acc ++ records).length →
      fetch_loop server params.whereClause pt pag (some m) (fuel + 1)
          offset acc reqs =
        (reqs ++ [if pag then some (offset, record_limit) else none],
         .ok ((acc ++ records).take m))) := by
  have hm' : m ≠ 0 := Nat.pos_iff_ne_zero.mp hm
  refine ⟨?_, ?_, ?_⟩
  · intro log df h c hc
    unfold fetch_data at h
    split at h
    · split at h <;> simp at h
    · rename_i reqs recs heq
      split at h
      · simp at h
      · simp only [Prod.mk.injEq, Except.ok.injEq, Option.some.injEq] at h
        obtain ⟨-, hdf⟩ := h
        subst hdf
        have hlen : recs.length ≤ m :=
          fetch_loop_cap_le hm' fuel 0 [] [] reqs recs (by simp) heq
        obtain ⟨c', hc', -, hlenc⟩ := post_process_col_length c hc
        have hto := to_df_col_length c' hc'
        omega
  · intro log r h e he
    unfold fetch_data at h
    split at h
    · rename_i reqs e' heq
      have base := fetch_loop_reqs_full fuel 0 [] [] reqs _ heq (by simp)
      split at h <;>
        (obtain ⟨h1, -⟩ := Prod.mk.injEq .. ▸ h; subst h1; exact base e he)
    · rename_i reqs recs heq
      have base := fetch_loop_reqs_full fuel 0 [] [] reqs _ heq (by simp)
      split at h <;>
        (obtain ⟨h1, -⟩ := Prod.mk.injEq .. ▸ h; subst h1; exact base e he)
  · intro offset acc reqs fs records hsv hfs hmap hcap
    have hmap' : List.mapM.loop (flatten_feature pt) fs [] =
        Except.ok records := hmap
    simp [fetch_loop, hsv, hfs, hmap, hmap', hm', hcap]
    intro hlt
    rw [List.length_append] at hcap
    omega

/-- Witness for C6: the five-records-per-page fixture with cap 7 stops
with exactly seven records after over-fetching the second page, so the
single column's length is at most the cap. -/
theorem c6_record_cap_witness :
    ("i", [Val.int 0, Val.int 1, Val.int 2, Val.int 3, Val.int 4,
      Val.int 1000, Val.int 1001]).2.length ≤ 7 :=
  (c6_record_cap 4 ex_srv_cap (id_query_params "i" 0) none true
      (some "t") 7 (by decide)).1
    [some (0, record_limit), some (1000, record_limit)]
    [("i", [Val.int 0, Val.int 1, Val.int 2, Val.int 3, Val.int 4,
      Val.int 1000, Val.int 1001])]
    (by decide)
    ("i", [Val.int 0, Val.int 1, Val.int 2, Val.int 3, Val.int 4,
      Val.int 1000, Val.int 1001])
    (by decide)

/-- Claim C7: post-processing converts every column whose name contains
"date" case-insensitively and whose cells are all integers from Unix
milliseconds to datetimes and leaves the other columns as they are; for
the `cityline_requests` table only, it additionally parses the three
named textual timestamp columns with the explicit
`%m/%d/%Y - %I:%M%p` format, coercing unparsable cells to missing
rather than failing. -/
theorem c7_date_conversions :
    (∀ (df : DF) (name : String) (vals : List Val), (name, vals) ∈ df →
      is_date_col name = true → all_int vals = true →
      (name, vals.map ms_to_datetime) ∈ convert_dates df) ∧
    (∀ (df : DF) (name : String) (vals : List Val), (name, vals) ∈ df →
      ¬(is_date_col name = true ∧ all_int vals = true) →
      (name, vals) ∈ convert_dates df) ∧
    (∀ n : Int, ms_to_datetime (.int n) = .dt n) ∧
    (∀ (df : DF) (tn : Option String), tn ≠ some "cityline_requests" →
      post_process df tn = convert_dates df) ∧
    (∀ df : DF, post_process df (some "cityline_requests") =
      convert_cityline (convert_dates df)) ∧
    (∀ (df : DF) (name : String) (vals : List Val), (name, vals) ∈ df →
      name ∈ cityline_fields →
      (name, vals.map coerce_parse) ∈ convert_cityline df) ∧
    (∀ s, parse_cityline s = none → coerce_parse (.str s) = .null) ∧
    (∀ s t, parse_cityline s = some t → coerce_parse (.str s) = .dt t) := by
  refine ⟨?_, ?_, fun n => rfl, ?_, ?_, ?_, ?_, ?_⟩
  · intro df name vals hmem h1 h2
    unfold convert_dates
    refine List.mem_map.mpr ⟨(name, vals), hmem, ?_⟩
    simp [h1, h2]
  · intro df name vals hmem h
    unfold convert_dates
    refine List.mem_map.mpr ⟨(name, vals), hmem, ?_⟩
    rcases h1 : is_date_col name <;> rcases h2 : all_int vals <;>
      simp_all
  · intro df tn h
    unfold post_process
    have : (tn == some "cityline_requests") = false :=
      beq_eq_false_iff_ne.mpr h
    simp [this]
  · intro df
    unfold post_process
    simp
  · intro df name vals hmem h
    unfold convert_cityline
    refine List.mem_map.mpr ⟨(name, vals), hmem, ?_⟩
    simp [h]
  · intro s h
    simp [coerce_parse, h]
  · intro s t h
    simp [coerce_parse, h]

/-- Witness for C7: a concrete all-integer "date" column is converted
from milliseconds, and a concrete unparsable cityline cell coerces to
missing. -/
theorem c7_date_conversions_witness :
    ("issue_date", [Val.dt 1700000000000]) ∈
      convert_dates [("issue_date", [Val.int 1700000000000])] ∧
    coerce_parse (.str "bogus") = Val.null :=
  ⟨c7_date_conversions.1 [("issue_date", [Val.int 1700000000000])]
      "issue_date" [Val.int 1700000000000] (by simp) (by decide)
      (by decide),
    c7_date_conversions.2.2.2.2.2.2.1 "bogus" (by decide)⟩

end Syr
